import Mathlib

/-!
Verification of the PipePlay playback state core.

Shallow embedding of the playback state store and its operations from
`mpv_backend.py`, the dispatcher entry points from `media_player.py`, the
HTTP volume-command validation from `api_server.py`, and the event
callbacks the media engine delivers (`_on_position_change`,
`_on_duration_change`, `_on_pause_change`, `_on_eof`).

Modelling conventions:
- Python floats are modelled as rationals (the operations only compare and
  store them; no rounding arithmetic is involved).
- `self._mpv_player` being non-None is the Boolean field `engine`.
- Engine calls that the source wraps in try/except (the mpv calls inside
  `play_media`, `set_volume`, `set_mute`, `seek`, `cleanup`) are given an
  explicit failure oracle `mpvFails`; engine calls the source performs with
  no exception handler (`pause`, `resume`, `stop` property sets) are
  modelled as non-raising, matching the source's assumption.
- Each Python method that can raise returns an `Except` result paired with
  the store after the call; callbacks are pure store transformers.
- Python truthiness of `self._current_media` (used in `_on_pause_change`
  and `seek`) is `mediaTruthy`: a present, non-empty locator.
-/

namespace PipePlay

/-- Playback state enum.  The source keeps it as the strings
"idle" / "playing" / "paused"; `media_player.py` additionally maps
"buffering", so the enum carries it, though `mpv_backend.py` never
assigns it. -/
inductive PState where
  | idle
  | playing
  | paused
  | buffering
deriving DecidableEq

/-- Error kinds raised by backend operations (`play_media` re-raises the
engine failure; `initialize` re-raises engine construction failure). -/
inductive BackendError where
  | loadFailed
  | initFailed
deriving DecidableEq

/-- The playback state store: the mutable fields of `MPVBackend.__init__`
(`_mpv_player` abstracted to presence, `_volume`, `_muted`, `_state`,
`_current_media`, `_position`, `_duration`). -/
structure Store where
  engine : Bool
  volume : ℚ
  muted : Bool
  state : PState
  currentMedia : Option String
  position : ℚ
  duration : ℚ
deriving DecidableEq

/-- Initial store, from `MPVBackend.__init__`: no engine, volume 1.0,
unmuted, idle, no media, position 0, duration 0. -/
def initStore : Store :=
  { engine := false, volume := 1, muted := false, state := .idle,
    currentMedia := none, position := 0, duration := 0 }

/-- Python truthiness of `self._current_media`: a present, non-empty
string. -/
def mediaTruthy (s : Store) : Bool :=
  match s.currentMedia with
  | some m => !(m == "")
  | none => false

/-- `MPVBackend.initialize`: on success the engine instance is created;
on failure the exception propagates and `_mpv_player` stays None. -/
def initEngine (ok : Bool) (s : Store) : (Except BackendError Unit) × Store :=
  if ok then (.ok (), { s with engine := true })
  else (.error .initFailed, s)

/-- `MPVBackend._on_position_change`: `if value is not None` update
`_position`. -/
def on_position_change (v : Option ℚ) (s : Store) : Store :=
  match v with
  | some x => { s with position := x }
  | none => s

/-- `MPVBackend._on_duration_change`: `if value is not None` update
`_duration`. -/
def on_duration_change (v : Option ℚ) (s : Store) : Store :=
  match v with
  | some x => { s with duration := x }
  | none => s

/-- `MPVBackend._on_pause_change`: `if value:` set state "paused";
`elif self._current_media:` set state "playing"; otherwise unchanged. -/
def on_pause_change (value : Bool) (s : Store) : Store :=
  if value then { s with state := .paused }
  else if mediaTruthy s then { s with state := .playing }
  else s

/-- `MPVBackend._on_eof`: `if value:` set state "idle", clear
`_current_media`, clear `_position`. -/
def on_eof (value : Bool) (s : Store) : Store :=
  if value then { s with state := .idle, currentMedia := none, position := 0 }
  else s

/-- `MPVBackend.play_media`: sets `_current_media` and state "playing",
then calls `self._mpv_player.play(url)`.  If the engine is absent the
attribute access raises, and if the engine call raises, the except branch
resets state to "idle" and `_current_media` to None (position and all
other fields untouched) and re-raises. -/
def play_media (url : String) (mpvFails : Bool) (s : Store) :
    (Except BackendError Unit) × Store :=
  if s.engine && !mpvFails then
    (.ok (), { s with currentMedia := some url, state := .playing })
  else
    (.error .loadFailed, { s with state := .idle, currentMedia := none })

/-- `MPVBackend.pause`: `if self._mpv_player:` set the engine pause
property.  The store is never mutated and no exception is raised; with no
engine it silently does nothing. -/
def pause (s : Store) : (Except BackendError Unit) × Store :=
  (.ok (), s)

/-- `MPVBackend.resume`: `if self._mpv_player:` clear the engine pause
property.  The store is never mutated and no exception is raised; with no
engine it silently does nothing. -/
def resume (s : Store) : (Except BackendError Unit) × Store :=
  (.ok (), s)

/-- `MPVBackend.stop`: `if self._mpv_player:` call the engine stop and
set state "idle", clear `_current_media`, clear `_position`.  With no
engine the whole body is skipped: the store is unchanged and no error is
raised. -/
def stop (s : Store) : (Except BackendError Unit) × Store :=
  if s.engine then
    (.ok (), { s with state := .idle, currentMedia := none, position := 0 })
  else
    (.ok (), s)

/-- `MPVBackend.set_volume`: inside try, `if self._mpv_player:` set the
engine volume to `volume * 100` (may raise), then store `_volume = volume`
with no range check; the except branch swallows the error, leaving
`_volume` unchanged. -/
def set_volume (v : ℚ) (mpvFails : Bool) (s : Store) :
    (Except BackendError Unit) × Store :=
  if s.engine && mpvFails then (.ok (), s)
  else (.ok (), { s with volume := v })

/-- `MPVBackend.set_mute`: same structure as `set_volume` for the
`_muted` field. -/
def set_mute (m : Bool) (mpvFails : Bool) (s : Store) :
    (Except BackendError Unit) × Store :=
  if s.engine && mpvFails then (.ok (), s)
  else (.ok (), { s with muted := m })

/-- `MPVBackend.seek`: inside try, `if self._mpv_player and
self._current_media:` call the engine seek (any error swallowed).  No
store field is ever written.  The Boolean records whether the engine seek
call was attempted. -/
def seek (p : ℚ) (mpvFails : Bool) (s : Store) : Bool × Store :=
  (s.engine && mediaTruthy s, s)

/-- `MPVBackend.cleanup`: inside try, `if self._mpv_player:` terminate
the engine (may raise, swallowed — in that case `_mpv_player` is not
cleared) then set `_mpv_player = None`. -/
def cleanup (mpvFails : Bool) (s : Store) : (Except BackendError Unit) × Store :=
  if s.engine && mpvFails then (.ok (), s)
  else (.ok (), { s with engine := false })

/-- `PipePlayPlayer.async_play_media`: resolves display metadata (entity
fields outside the playback state store) and then forwards to the
backend's `play_media`, re-raising any failure; the store effect and the
surfaced result are exactly those of `play_media`. -/
def async_play_media (url : String) (mpvFails : Bool) (s : Store) :
    (Except BackendError Unit) × Store :=
  play_media url mpvFails s

/-- `PipePlayPlayer.async_media_play`: `if self.state ==
MediaPlayerState.PAUSED: await self._backend.resume()` else only a
warning is logged.  The Boolean records whether a backend operation was
invoked. -/
def async_media_play (s : Store) : Bool × Store :=
  if s.state = .paused then (true, (resume s).2) else (false, s)

/-- `PipePlayAPIServer._handle_command`, "volume" branch: `level =
data.get("level")`; `if level is None or not 0 <= level <= 1` respond 400
with a validation error; otherwise forward through
`async_set_volume_level` to the backend's `set_volume`.  The Boolean
records whether the backend engine was touched (the mpv volume property
is set only when an engine instance exists). -/
def handleVolumeCommand (level : Option ℚ) (mpvFails : Bool) (s : Store) :
    Bool × Except String Store :=
  match level with
  | none => (false, .error "level must be between 0 and 1")
  | some v =>
    if 0 ≤ v ∧ v ≤ 1 then (s.engine, .ok (set_volume v mpvFails s).2)
    else (false, .error "level must be between 0 and 1")

/-- Whether an `Except` result is a success. -/
def isOkB {ε α : Type} : Except ε α → Bool
  | .ok _ => true
  | .error _ => false

/-- One atomic step of the system: a dispatcher command or a backend
event applied to the store (result values dropped; the store effect is
what reachability tracks). -/
inductive Cmd where
  | playMedia (url : String) (mpvFails : Bool)
  | pauseCmd
  | resumeCmd
  | stopCmd
  | setVolumeCmd (v : ℚ) (mpvFails : Bool)
  | setMuteCmd (m : Bool) (mpvFails : Bool)
  | seekCmd (p : ℚ) (mpvFails : Bool)
  | evPosition (v : Option ℚ)
  | evDuration (v : Option ℚ)
  | evPause (value : Bool)
  | evEof (value : Bool)
  | engineInit (ok : Bool)
  | cleanupCmd (mpvFails : Bool)
deriving DecidableEq

/-- Store effect of one step. -/
def step : Cmd → Store → Store
  | .playMedia url f, s => (play_media url f s).2
  | .pauseCmd, s => (pause s).2
  | .resumeCmd, s => (resume s).2
  | .stopCmd, s => (stop s).2
  | .setVolumeCmd v f, s => (set_volume v f s).2
  | .setMuteCmd m f, s => (set_mute m f s).2
  | .seekCmd p f, s => (seek p f s).2
  | .evPosition v, s => on_position_change v s
  | .evDuration v, s => on_duration_change v s
  | .evPause b, s => on_pause_change b s
  | .evEof b, s => on_eof b s
  | .engineInit ok, s => (initEngine ok s).2
  | .cleanupCmd f, s => (cleanup f s).2

/-- Run a sequence of steps. -/
def run : List Cmd → Store → Store
  | [], s => s
  | c :: cs, s => run cs (step c s)

/-- A store reachable from the initial store by some sequence of commands
and backend events. -/
def Reachable (s : Store) : Prop :=
  ∃ l : List Cmd, run l initStore = s

/-- The invariant claimed by the spec: media present iff state is
Playing, Paused or Buffering. -/
abbrev mediaStateIff (s : Store) : Prop :=
  s.currentMedia.isSome = true ↔
    (s.state = PState.playing ∨ s.state = PState.paused ∨ s.state = PState.buffering)

/-- The direction of the spec invariant that the code does maintain:
whenever media is present the state is Playing or Paused. -/
def mediaImpliesActive (s : Store) : Prop :=
  s.currentMedia.isSome = true → (s.state = PState.playing ∨ s.state = PState.paused)

/-- Whether a command is a `play_media` invocation. -/
def isPlayCmd : Cmd → Bool
  | .playMedia _ _ => true
  | _ => false

/-- Whether a command is a `play_media` invocation that succeeds from the
given prior store (engine present, engine call does not fail). -/
def playSucceeds (pre : Store) : Cmd → Bool
  | .playMedia _ f => pre.engine && !f
  | _ => false

/-- The state-transition table exactly as the claim states it (§4.2 of
the spec): Idle→Playing on successful play_media; Playing→Paused on
PauseChanged(true); Paused→Playing on PauseChanged(false);
Playing/Paused→Idle on EndOfStream(true) or stop. -/
abbrev claimedTransition (pre : Store) (c : Cmd) (post : Store) : Prop :=
  (pre.state = PState.idle ∧ playSucceeds pre c = true ∧ post.state = PState.playing)
  ∨ (pre.state = PState.playing ∧ c = Cmd.evPause true ∧ post.state = PState.paused)
  ∨ (pre.state = PState.paused ∧ c = Cmd.evPause false ∧ post.state = PState.playing)
  ∨ ((pre.state = PState.playing ∨ pre.state = PState.paused)
      ∧ (c = Cmd.evEof true ∨ c = Cmd.stopCmd) ∧ post.state = PState.idle)

/-- The state transitions the code actually performs: successful
play_media goes to Playing from any state; failed play_media goes to
Idle; PauseChanged(true) goes to Paused from any state;
PauseChanged(false) with media loaded goes to Playing; EndOfStream(true)
goes to Idle; stop with an engine present goes to Idle. -/
def codeTransition (pre : Store) (c : Cmd) (post : Store) : Prop :=
  (playSucceeds pre c = true ∧ post.state = PState.playing)
  ∨ (isPlayCmd c = true ∧ playSucceeds pre c = false ∧ post.state = PState.idle)
  ∨ (c = Cmd.evPause true ∧ post.state = PState.paused)
  ∨ (c = Cmd.evPause false ∧ mediaTruthy pre = true ∧ post.state = PState.playing)
  ∨ (c = Cmd.evEof true ∧ post.state = PState.idle)
  ∨ (c = Cmd.stopCmd ∧ pre.engine = true ∧ post.state = PState.idle)

/-- Each single step preserves the direction of the media/state invariant
that the code maintains. -/
theorem step_preserves_media (c : Cmd) (s : Store)
    (h : mediaImpliesActive s) : mediaImpliesActive (step c s) := by
  cases c with
  | playMedia url f =>
    by_cases he : (s.engine && !f) = true <;>
      simp only [step, play_media, he, if_true, if_false, reduceIte] <;>
      intro hm <;> simp_all [mediaImpliesActive]
  | pauseCmd => exact h
  | resumeCmd => exact h
  | stopCmd =>
    by_cases he : s.engine = true <;>
      simp only [step, stop, he, if_true, if_false, reduceIte] <;>
      intro hm <;> simp_all [mediaImpliesActive]
  | setVolumeCmd v f =>
    by_cases he : (s.engine && f) = true <;>
      simp only [step, set_volume, he, if_true, if_false, reduceIte] <;>
      exact h
  | setMuteCmd m f =>
    by_cases he : (s.engine && f) = true <;>
      simp only [step, set_mute, he, if_true, if_false, reduceIte] <;>
      exact h
  | seekCmd p f => exact h
  | evPosition v => cases v <;> exact h
  | evDuration v => cases v <;> exact h
  | evPause b =>
    cases b with
    | true => intro _; exact Or.inr rfl
    | false =>
      by_cases hm : mediaTruthy s = true <;>
        simp only [step, on_pause_change, hm, if_true, if_false, reduceIte,
          Bool.false_eq_true] <;>
        intro hsome
      · exact Or.inl rfl
      · exact h hsome
  | evEof b =>
    cases b with
    | true => intro hm; simp_all [step, on_eof, mediaImpliesActive]
    | false => exact h
  | engineInit ok =>
    cases ok <;> simp only [step, initEngine, if_true, if_false, reduceIte] <;> exact h
  | cleanupCmd f =>
    by_cases he : (s.engine && f) = true <;>
      simp only [step, cleanup, he, if_true, if_false, reduceIte] <;>
      exact h

/-- Running any trace preserves the media/state invariant. -/
theorem run_preserves_media (l : List Cmd) :
    ∀ s : Store, mediaImpliesActive s → mediaImpliesActive (run l s) := by
  induction l with
  | nil => intro s h; exact h
  | cons c cs ih => intro s h; exact ih (step c s) (step_preserves_media c s h)

/-- C2 (counterexample): the claimed biconditional between a loaded media
reference and the state being Playing/Paused/Buffering fails on a
reachable store: a PauseChanged(true) event delivered in the initial Idle
state (engine pause property toggled with nothing loaded) moves the state
to Paused while current_media stays None. -/
theorem C2_counterexample :
    Reachable (run [Cmd.evPause true] initStore)
    ∧ ¬ mediaStateIff (run [Cmd.evPause true] initStore) :=
  ⟨⟨[Cmd.evPause true], rfl⟩, by decide⟩

/-- C2 (amended): in every reachable store, if current_media is Some then
the state is Playing or Paused; the converse direction of the claimed
invariant does not hold. -/
theorem C2_media_active_invariant (s : Store) (hr : Reachable s) :
    mediaImpliesActive s := by
  obtain ⟨l, hl⟩ := hr
  have h0 : mediaImpliesActive initStore := by
    intro hm; simp [initStore] at hm
  have := run_preserves_media l initStore h0
  rwa [hl] at this

/-- Witness for C2: the amended invariant applied at the initial store. -/
theorem C2_media_active_invariant_w :
    Reachable initStore ∧ mediaImpliesActive initStore :=
  ⟨⟨[], rfl⟩, C2_media_active_invariant initStore ⟨[], rfl⟩⟩

/-- C3 (counterexample): stop() after the engine was cleaned up does not
reset the store: play succeeds, cleanup removes the engine instance but
leaves the state fields, and then stop() skips its whole body, leaving
the state Playing rather than Idle. -/
theorem C3_counterexample :
    Reachable (run [Cmd.engineInit true, Cmd.playMedia "song.mp3" false,
      Cmd.cleanupCmd false] initStore)
    ∧ (stop (run [Cmd.engineInit true, Cmd.playMedia "song.mp3" false,
        Cmd.cleanupCmd false] initStore)).2.state ≠ PState.idle :=
  ⟨⟨[Cmd.engineInit true, Cmd.playMedia "song.mp3" false, Cmd.cleanupCmd false],
    rfl⟩, by decide⟩

/-- C3 (amended): stop() never raises; when a backend engine instance
exists it results in state Idle, current_media None and position 0, and
when no engine exists it leaves the store entirely unchanged. -/
theorem C3_stop_semantics (s : Store) :
    stop s = (Except.ok (),
      if s.engine then
        { s with state := PState.idle, currentMedia := none, position := 0 }
      else s) := by
  by_cases h : s.engine = true <;> simp [stop, h]

/-- C4 (code evaluation): a store whose volume is outside [0,1] is
reachable: the interactive volume command forwards an arbitrary float to
the backend set_volume, which stores it without any range check. -/
theorem C4_volume_range_violation :
    Reachable (run [Cmd.setVolumeCmd 5 false] initStore)
    ∧ ¬ (0 ≤ (run [Cmd.setVolumeCmd 5 false] initStore).volume
          ∧ (run [Cmd.setVolumeCmd 5 false] initStore).volume ≤ 1) :=
  ⟨⟨[Cmd.setVolumeCmd 5 false], rfl⟩, by decide⟩

/-- C5 (counterexample): a PauseChanged(true) event delivered in the Idle
initial state changes the state field (Idle to Paused), a transition
absent from the table the claim lists. -/
theorem C5_counterexample :
    (step (Cmd.evPause true) initStore).state ≠ initStore.state
    ∧ ¬ claimedTransition initStore (Cmd.evPause true)
        (step (Cmd.evPause true) initStore) := by
  decide

/-- C5 (amended): PositionChanged/DurationChanged events never change the
state field, and every state change performed by any command or event is
one of the transitions the code actually implements (`codeTransition`):
successful play_media to Playing from any state, failed play_media to
Idle, PauseChanged(true) to Paused from any state, PauseChanged(false)
with media loaded to Playing, EndOfStream(true) to Idle, and stop with an
engine present to Idle. -/
theorem C5_state_transitions (s : Store) (c : Cmd) :
    ((step c s).state = s.state ∨ codeTransition s c (step c s))
    ∧ (∀ v : Option ℚ, (step (Cmd.evPosition v) s).state = s.state
        ∧ (step (Cmd.evDuration v) s).state = s.state) := by
  constructor
  · cases c with
    | playMedia url f =>
      refine Or.inr ?_
      cases he : (s.engine && !f) <;>
        simp [codeTransition, playSucceeds, isPlayCmd, step, play_media, he]
    | pauseCmd => exact Or.inl rfl
    | resumeCmd => exact Or.inl rfl
    | stopCmd =>
      cases he : s.engine with
      | true =>
        refine Or.inr ?_
        simp [codeTransition, playSucceeds, isPlayCmd, step, stop, he]
      | false => exact Or.inl (by simp [step, stop, he])
    | setVolumeCmd v f =>
      cases he : (s.engine && f) <;> simp [step, set_volume, he]
    | setMuteCmd m f =>
      cases he : (s.engine && f) <;> simp [step, set_mute, he]
    | seekCmd p f => exact Or.inl rfl
    | evPosition v => cases v <;> exact Or.inl rfl
    | evDuration v => cases v <;> exact Or.inl rfl
    | evPause b =>
      cases b with
      | true =>
        refine Or.inr ?_
        simp [codeTransition, playSucceeds, isPlayCmd, step, on_pause_change]
      | false =>
        cases hm : mediaTruthy s with
        | true =>
          refine Or.inr ?_
          simp [codeTransition, playSucceeds, isPlayCmd, step, on_pause_change, hm]
        | false => exact Or.inl (by simp [step, on_pause_change, hm])
    | evEof b =>
      cases b with
      | true =>
        refine Or.inr ?_
        simp [codeTransition, playSucceeds, isPlayCmd, step, on_eof]
      | false => exact Or.inl rfl
    | engineInit ok => cases ok <;> simp [step, initEngine]
    | cleanupCmd f =>
      cases he : (s.engine && f) <;> simp [step, cleanup, he]
  · intro v
    cases v <;> exact ⟨rfl, rfl⟩

/-- C6 (counterexample): with no engine instance (the initial store),
pause(), resume() and stop() all return success and leave the store
unchanged, rather than failing with a NotReady/BackendUnavailable
error. -/
theorem C6_counterexample :
    initStore.engine = false
    ∧ pause initStore = (Except.ok (), initStore)
    ∧ resume initStore = (Except.ok (), initStore)
    ∧ stop initStore = (Except.ok (), initStore) :=
  ⟨rfl, rfl, rfl, rfl⟩

/-- C6 (amended): when no backend engine instance exists, pause(),
resume() and stop() silently do nothing: each returns success and leaves
the store unchanged. -/
theorem C6_no_engine_noop (s : Store) (h : s.engine = false) :
    pause s = (Except.ok (), s)
    ∧ resume s = (Except.ok (), s)
    ∧ stop s = (Except.ok (), s) := by
  refine ⟨rfl, rfl, ?_⟩
  simp [stop, h]

/-- Witness for C6: the amended no-op semantics at the initial store. -/
theorem C6_no_engine_noop_w :
    pause initStore = (Except.ok (), initStore)
    ∧ resume initStore = (Except.ok (), initStore)
    ∧ stop initStore = (Except.ok (), initStore) :=
  C6_no_engine_noop initStore rfl

/-- C7: whenever the backend engine play call fails (no engine instance,
or the engine call raises), the dispatcher play_media surfaces the error
and the store is left with state Idle and current_media None. -/
theorem C7_play_failure_idle (s : Store) (url : String) (f : Bool)
    (h : s.engine = false ∨ f = true) :
    async_play_media url f s =
      (Except.error BackendError.loadFailed,
       { s with state := PState.idle, currentMedia := none }) := by
  rcases h with h | h <;> simp [async_play_media, play_media, h]

/-- Witness for C7: play of a locator with no engine instance fails and
leaves the Idle store. -/
theorem C7_play_failure_idle_w :
    async_play_media "bad.mp3" false initStore =
      (Except.error BackendError.loadFailed,
       { initStore with state := PState.idle, currentMedia := none }) :=
  C7_play_failure_idle initStore "bad.mp3" false (Or.inl rfl)

/-- C8 (counterexample): the claim that a successful play_media from Idle
clears the position fails: in a reachable Idle store whose position is 5
(a PositionChanged event delivered while idle), a successful play_media
leaves position 5, not 0. -/
theorem C8_counterexample :
    Reachable (run [Cmd.engineInit true, Cmd.evPosition (some 5)] initStore)
    ∧ (run [Cmd.engineInit true, Cmd.evPosition (some 5)] initStore).state
        = PState.idle
    ∧ (play_media "song.mp3" false
        (run [Cmd.engineInit true, Cmd.evPosition (some 5)] initStore)).1
        = Except.ok ()
    ∧ (play_media "song.mp3" false
        (run [Cmd.engineInit true, Cmd.evPosition (some 5)] initStore)).2.position
        ≠ 0 :=
  ⟨⟨[Cmd.engineInit true, Cmd.evPosition (some 5)], rfl⟩, rfl, rfl, by decide⟩

/-- C8 (amended): when play_media succeeds from Idle (engine present,
engine call does not fail), the resulting store has state Playing and
current_media set to the locator; every other field, in particular the
position, is left unchanged rather than cleared. -/
theorem C8_play_from_idle (s : Store) (url : String)
    (h1 : s.state = PState.idle) (h2 : s.engine = true) :
    play_media url false s =
      (Except.ok (), { s with state := PState.playing, currentMedia := some url }) := by
  simp [play_media, h2]

/-- Witness for C8: successful play from the freshly initialized Idle
store. -/
theorem C8_play_from_idle_w :
    play_media "song.mp3" false (run [Cmd.engineInit true] initStore) =
      (Except.ok (), { run [Cmd.engineInit true] initStore with
        state := PState.playing, currentMedia := some "song.mp3" }) :=
  C8_play_from_idle (run [Cmd.engineInit true] initStore) "song.mp3" rfl rfl

/-- C9: the play command from a state other than Paused (in particular
Playing or Idle) invokes no backend operation and leaves the full store
snapshot identical; a backend operation is invoked exactly when the state
is Paused. -/
theorem C9_play_command_noop (s : Store) :
    ((s.state = PState.playing ∨ s.state = PState.idle) →
      async_media_play s = (false, s))
    ∧ ((async_media_play s).1 = true ↔ s.state = PState.paused) := by
  constructor
  · intro h
    have hne : ¬ s.state = PState.paused := by
      rcases h with h | h <;> simp [h]
    simp [async_media_play, hne]
  · by_cases h : s.state = PState.paused <;> simp [async_media_play, h, resume]

/-- Witness for C9: the play command in the initial Idle store is a
no-op. -/
theorem C9_play_command_noop_w :
    async_media_play initStore = (false, initStore) :=
  (C9_play_command_noop initStore).1 (Or.inr rfl)

/-- C10: seek never mutates any field of the store; the backend seek call
is attempted exactly when an engine instance exists and media is loaded
(silently skipped otherwise); and no command or event other than a
PositionChanged event ever sets the position to a new value — every other
step leaves the position unchanged or clears it to 0. -/
theorem C10_seek_frame (s : Store) (p : ℚ) (f : Bool) :
    (seek p f s).2 = s
    ∧ ((seek p f s).1 = true ↔ (s.engine = true ∧ mediaTruthy s = true))
    ∧ (∀ c : Cmd, (∀ v : Option ℚ, c ≠ Cmd.evPosition v) →
        (step c s).position = s.position ∨ (step c s).position = 0) := by
  refine ⟨rfl, by simp [seek], ?_⟩
  intro c hc
  cases c with
  | playMedia url g =>
    by_cases he : (s.engine && !g) = true <;> simp [step, play_media, he]
  | pauseCmd => exact Or.inl rfl
  | resumeCmd => exact Or.inl rfl
  | stopCmd => by_cases he : s.engine = true <;> simp [step, stop, he]
  | setVolumeCmd v g =>
    by_cases he : (s.engine && g) = true <;> simp [step, set_volume, he]
  | setMuteCmd m g =>
    by_cases he : (s.engine && g) = true <;> simp [step, set_mute, he]
  | seekCmd q g => exact Or.inl rfl
  | evPosition v => exact absurd rfl (hc v)
  | evDuration v => cases v <;> exact Or.inl rfl
  | evPause b =>
    cases b with
    | true => exact Or.inl rfl
    | false =>
      by_cases hm : mediaTruthy s = true <;> simp [step, on_pause_change, hm]
  | evEof b => cases b <;> simp [step, on_eof]
  | engineInit ok => cases ok <;> simp [step, initEngine]
  | cleanupCmd g =>
    by_cases he : (s.engine && g) = true <;> simp [step, cleanup, he]

/-- Witness for C10: seek in the initial store changes nothing, and the
stop command in the initial store leaves the position unchanged or
cleared. -/
theorem C10_seek_frame_w :
    (seek 0 false initStore).2 = initStore
    ∧ ((step Cmd.stopCmd initStore).position = initStore.position
        ∨ (step Cmd.stopCmd initStore).position = 0) :=
  ⟨(C10_seek_frame initStore 0 false).1,
   (C10_seek_frame initStore 0 false).2.2 Cmd.stopCmd
     (fun v h => Cmd.noConfusion h)⟩

/-- C1: the volume command succeeds exactly when the level is present and
within [0,1]; an out-of-range or missing level is rejected with a
validation error and the backend is not touched; a valid level whose
engine call does not fail is stored exactly (no clamping). -/
theorem C1_volume_validation (v : ℚ) (f : Bool) (s : Store) :
    (isOkB (handleVolumeCommand (some v) f s).2 = true ↔ (0 ≤ v ∧ v ≤ 1))
    ∧ isOkB (handleVolumeCommand none f s).2 = false
    ∧ (¬ (0 ≤ v ∧ v ≤ 1) →
        handleVolumeCommand (some v) f s =
          (false, Except.error "level must be between 0 and 1"))
    ∧ (0 ≤ v → v ≤ 1 → (s.engine = true → f = false) →
        (handleVolumeCommand (some v) f s).2 = Except.ok { s with volume := v }) := by
  refine ⟨?_, rfl, ?_, ?_⟩
  · by_cases h : 0 ≤ v ∧ v ≤ 1 <;> simp [handleVolumeCommand, h, isOkB]
  · intro h
    simp [handleVolumeCommand, h]
  · intro h1 h2 h3
    have hs : ¬ (s.engine && f) = true := by
      cases he : s.engine
      · simp
      · simp [h3 he]
    simp [handleVolumeCommand, h1, h2, set_volume, hs]

/-- Witness for C1: a valid volume 1/2 in the initial store is accepted
and stored exactly. -/
theorem C1_volume_validation_w :
    (handleVolumeCommand (some (1/2)) false initStore).2 =
      Except.ok { initStore with volume := 1/2 } :=
  (C1_volume_validation (1/2) false initStore).2.2.2
    (by norm_num) (by norm_num) (fun _ => rfl)

end PipePlay
